import Mathlib

/-!
Verification of the Express product API (`src/product-api/server.js`).

The server keeps a single in-memory list of product records and exposes
authenticated CRUD, listing with filter/pagination, substring search and
per-category statistics.  We embed the request-handling logic shallowly:

* JSON values carried by a request body are modelled by `JsValue`
  (string / number / boolean / null / undefined, with integers standing in
  for JS numbers; NaN, -0 and fractional values are not exercised by any
  property below).
* Each Express handler becomes a pure function from the request data and
  the store state to a response and a new state.
* Route dispatch follows the registration order of the source file:
  Express tries routes in the order they were registered and uses the
  first pattern that matches, so `/products/:id` (registered first)
  captures `/products/search` and `/products/stats`.
* `uuidv4()` is an opaque generator of identifiers that are fresh with
  probability 1; it is modelled as a serial-indexed injective string
  generator, together with ghost state (`issued`, `nextId`) recording all
  identifiers handed out so far.  The ghost fields never influence any
  response.
-/

/-- A JSON-ish runtime value as seen by the handlers.  `undef` stands for
JavaScript `undefined`, i.e. a field absent from the request body. -/
inductive JsValue where
  | str (s : String)
  | num (n : Int)
  | bool (b : Bool)
  | null
  | undef
deriving DecidableEq

/-- JavaScript truthiness of a value (`if (v)`), restricted to the values
of `JsValue`.  Empty strings, `0`, `false`, `null` and `undefined` are
falsy. -/
def truthy : JsValue → Bool
  | .str s => !(s == "")
  | .num n => !(n == 0)
  | .bool b => b
  | .null => false
  | .undef => false

/-- The JavaScript `typeof` operator on `JsValue` (`typeof null` is
`"object"` in JavaScript). -/
def typeofJs : JsValue → String
  | .str _ => "string"
  | .num _ => "number"
  | .bool _ => "boolean"
  | .null => "object"
  | .undef => "undefined"

/-- `v === undefined`? -/
def isUndef : JsValue → Bool
  | .undef => true
  | _ => false

/-- The string payload of a value; stored products only ever hold strings
in their text fields (the type invariant proved below), so the default
for the other constructors is never observed. -/
def jsStr : JsValue → String
  | .str s => s
  | _ => ""

/-- A stored product record (`products` array entries in the source). -/
structure Product where
  id : String
  name : JsValue
  description : JsValue
  price : JsValue
  category : JsValue
  inStock : JsValue
deriving DecidableEq

/-- A parsed JSON request body (`req.body` after `bodyParser.json()`);
fields that do not occur in the body read as `undefined`. -/
structure Body where
  name : JsValue
  description : JsValue
  price : JsValue
  category : JsValue
  inStock : JsValue
deriving DecidableEq

/-- The query string parameters used by the handlers (`req.query`).
A missing parameter is `none`; `?page=` gives `some ""`. -/
structure Query where
  category : Option String
  page : Option String
  limit : Option String
  q : Option String
deriving DecidableEq

/-- HTTP methods used by the API router. -/
inductive Method where
  | GET | POST | PUT | DELETE
deriving DecidableEq

/-- An incoming request to the `/api` router: method, path segments below
`/api` (e.g. `["products", "3"]`), the `x-api-key` header if present,
query parameters and parsed body. -/
structure Request where
  method : Method
  path : List String
  apiKey : Option String
  query : Query
  body : Body

/-- Server state: the `products` array plus ghost bookkeeping for the id
generator (`issued` = every id ever handed out, `nextId` = serial of the
next generated uuid).  The ghost fields never affect a response. -/
structure St where
  products : List Product
  issued : List String
  nextId : Nat
deriving DecidableEq

/-- Model of `uuidv4()`: the `k`-th generated identifier.  The exact
spelling is irrelevant; what the proofs use is that the generator is
injective and disjoint from the seeded ids `"1"`, `"2"`, `"3"` (and from
the literals `"search"`/`"stats"`). -/
def uuidStr (k : Nat) : String :=
  ⟨'u' :: 'u' :: 'i' :: 'd' :: '-' :: List.replicate k 'x'⟩

/-- The response body shapes produced by the handlers. -/
inductive RespBody where
  | product (p : Product)
  | products (ps : List Product)
  | listPage (page : Int) (limit : Int) (total : Nat) (items : List Product)
  | stats (counts : List (String × Nat))
  | message (s : String)
  | empty
deriving DecidableEq

/-- An HTTP response: status code and body.  Error responses produced by
the final error middleware are `message` bodies carrying the error's
message (the `{message, error}` JSON shape). -/
structure Resp where
  status : Nat
  body : RespBody
deriving DecidableEq

/-- `authMiddleware`: `apiKey && apiKey === process.env.API_KEY`.
The header and the configured secret are optional strings; an absent
header is falsy, and a string never strict-equals an absent secret. -/
def authOk (apiKey : Option String) (secret : Option String) : Bool :=
  match apiKey, secret with
  | some k, some s => !(k == "") && k == s
  | _, _ => false

/-- `validateProductCreation`: presence is checked by truthiness
(`!name || ... || inStock === undefined`), then types by `typeof`.
Returns the error message of the `ValidationError`, or `none` on
success. -/
def validateProductCreation (b : Body) : Option String :=
  if !truthy b.name || !truthy b.description || !truthy b.price ||
      !truthy b.category || isUndef b.inStock then
    some "All fields are required"
  else if typeofJs b.name != "string" || typeofJs b.description != "string" ||
      typeofJs b.price != "number" || typeofJs b.category != "string" ||
      typeofJs b.inStock != "boolean" then
    some "Invalid data types"
  else
    none

/-- `validateProductUpdate`: every field optional, truthy fields must have
the declared type; `inStock` is presence-checked against `undefined`. -/
def validateProductUpdate (b : Body) : Option String :=
  if truthy b.name && typeofJs b.name != "string" then
    some "Name must be a string"
  else if truthy b.description && typeofJs b.description != "string" then
    some "Description must be a string"
  else if truthy b.price && typeofJs b.price != "number" then
    some "Price must be a number"
  else if truthy b.category && typeofJs b.category != "string" then
    some "Category must be a string"
  else if !isUndef b.inStock && typeofJs b.inStock != "boolean" then
    some "inStock must be a boolean"
  else
    none

/-- JavaScript `parseInt` on a string with radix 10: skip leading
whitespace, optional sign, then the longest digit run; `none` models
`NaN`.  (The automatic hexadecimal radix for `0x` inputs is not modelled;
no property below exercises it.) -/
def parseIntJS (s : String) : Option Int :=
  let cs := s.data.dropWhile (fun c => c.isWhitespace)
  let signed : Bool × List Char :=
    match cs with
    | '-' :: rest => (true, rest)
    | '+' :: rest => (false, rest)
    | rest => (false, rest)
  let digits := signed.2.takeWhile (fun c => c.isDigit)
  if digits.isEmpty then
    none
  else
    let v : Int := Int.ofNat (digits.foldl (fun a c => a * 10 + (c.toNat - '0'.toNat)) 0)
    some (if signed.1 then -v else v)

/-- `parseInt(param) || dflt`: an absent parameter parses to `NaN`
(falsy), and a parsed `0` is falsy as well, so both fall back to the
default. -/
def jsIntParam (dflt : Int) (o : Option String) : Int :=
  match o with
  | none => dflt
  | some str =>
    match parseIntJS str with
    | none => dflt
    | some n => if n = 0 then dflt else n

/-- `Array.prototype.slice(start, end)` with integer arguments: negative
indices count back from the end of the array, and both cursors are
clamped to `[0, length]`. -/
def jsSlice {α : Type} (l : List α) (start stop : Int) : List α :=
  let len : Int := (l.length : Int)
  let k : Int := if start < 0 then max (len + start) 0 else min start len
  let fin : Int := if stop < 0 then max (len + stop) 0 else min stop len
  (l.drop k.toNat).take (fin - k).toNat

/-- Is `sub` a contiguous sublist of `s`?  (Backing for
`String.prototype.includes`.) -/
def subChars : List Char → List Char → Bool
  | t, [] => t.isEmpty
  | t, c :: rest => t.isPrefixOf (c :: rest) || subChars t rest

/-- `s.includes(sub)`. -/
def strIncludes (s sub : String) : Bool :=
  subChars sub.data s.data

/-- `s.toLowerCase()`, character by character (ASCII case mapping; the
product names and queries involved are ASCII). -/
def jsToLower (s : String) : String :=
  ⟨s.data.map Char.toLower⟩

/-- One step of the `reduce` in the stats handler:
`acc[category] = (acc[category] || 0) + 1`, on an association list kept
in key-insertion order (JavaScript object key order for string keys). -/
def bumpCat : List (String × Nat) → String → List (String × Nat)
  | [], c => [(c, 1)]
  | (k, n) :: rest, c =>
    if k == c then (k, n + 1) :: rest else (k, n) :: bumpCat rest c

/-- The stats accumulation over the whole collection. -/
def statsOf (ps : List Product) : List (String × Nat) :=
  ps.foldl (fun acc p => bumpCat acc (jsStr p.category)) []

/-- `GET /api/products`: category filter (truthiness-guarded), `parseInt`
defaults, then `slice`. -/
def listH (q : Query) (s : St) : Resp :=
  let filtered :=
    match q.category with
    | some c =>
      if c == "" then s.products
      else s.products.filter (fun p => decide (p.category = JsValue.str c))
    | none => s.products
  let page : Int := jsIntParam 1 q.page
  let lim : Int := jsIntParam 10 q.limit
  let startIndex := (page - 1) * lim
  let endIndex := page * lim
  ⟨200, .listPage page lim filtered.length (jsSlice filtered startIndex endIndex)⟩

/-- `GET /api/products/:id`. -/
def getByIdH (pid : String) (s : St) : Resp :=
  match s.products.find? (fun p => p.id == pid) with
  | some p => ⟨200, .product p⟩
  | none => ⟨404, .message "Product not found"⟩

/-- `POST /api/products` (after `validateProductCreation`). -/
def createH (b : Body) (s : St) : Resp × St :=
  match validateProductCreation b with
  | some msg => (⟨400, .message msg⟩, s)
  | none =>
    let newProduct : Product :=
      ⟨uuidStr s.nextId, b.name, b.description, b.price, b.category, b.inStock⟩
    (⟨201, .product newProduct⟩,
     ⟨s.products ++ [newProduct], s.issued ++ [newProduct.id], s.nextId + 1⟩)

/-- The in-place merge performed by the PUT handler on the found record:
`product.f = req.body.f || product.f` for the four truthiness-merged
fields, and `req.body.inStock !== undefined ? req.body.inStock :
product.inStock`. -/
def mergeUpdate (p : Product) (b : Body) : Product :=
  { p with
    name := if truthy b.name then b.name else p.name
    description := if truthy b.description then b.description else p.description
    price := if truthy b.price then b.price else p.price
    category := if truthy b.category then b.category else p.category
    inStock := if isUndef b.inStock then p.inStock else b.inStock }

/-- Replace the first record with the given id by its merge with the
payload (the source mutates the object returned by `find`). -/
def updateList : List Product → String → Body → List Product
  | [], _, _ => []
  | p :: rest, pid, b =>
    if p.id == pid then mergeUpdate p b :: rest else p :: updateList rest pid b

/-- `PUT /api/products/:id` (after `validateProductUpdate`). -/
def updateH (pid : String) (b : Body) (s : St) : Resp × St :=
  match validateProductUpdate b with
  | some msg => (⟨400, .message msg⟩, s)
  | none =>
    match s.products.find? (fun p => p.id == pid) with
    | some p =>
      (⟨200, .product (mergeUpdate p b)⟩, { s with products := updateList s.products pid b })
    | none => (⟨404, .message "Product not found"⟩, s)

/-- Remove the first record with the given id (`splice(index, 1)` at the
`findIndex` position). -/
def removeFirst : List Product → String → List Product
  | [], _ => []
  | p :: rest, pid => if p.id == pid then rest else p :: removeFirst rest pid

/-- `DELETE /api/products/:id`. -/
def deleteH (pid : String) (s : St) : Resp × St :=
  if (s.products.find? (fun p => p.id == pid)).isSome then
    (⟨204, .empty⟩, { s with products := removeFirst s.products pid })
  else
    (⟨404, .message "Product not found"⟩, s)

/-- `GET /api/products/search`: `req.query.q ? req.query.q.toLowerCase() : ''`,
then filter by `p.name.toLowerCase().includes(searchTerm)`. -/
def searchH (q : Query) (s : St) : Resp :=
  let searchTerm :=
    match q.q with
    | some t => if t == "" then "" else jsToLower t
    | none => ""
  ⟨200, .products (s.products.filter (fun p => strIncludes (jsToLower (jsStr p.name)) searchTerm))⟩

/-- `GET /api/products/stats`. -/
def statsH (s : St) : Resp :=
  ⟨200, .stats (statsOf s.products)⟩

/-- A route pattern segment: a literal or a `:param` placeholder. -/
inductive PSeg where
  | lit (s : String)
  | param
deriving DecidableEq

/-- Does a pattern match a concrete segment list (Express path
matching)? -/
def segMatch : List PSeg → List String → Bool
  | [], [] => true
  | .lit s :: ps, x :: xs => s == x && segMatch ps xs
  | .param :: ps, _ :: xs => segMatch ps xs
  | _, _ => false

/-- The handler a request dispatches to. -/
inductive RouteId where
  | list | getById | create | update | delete | search | stats | noRoute
deriving DecidableEq

/-- Route resolution in the registration order of the source file.
Express uses the first registered route whose pattern matches, so
`GET /products/:id` is tried before `GET /products/search` and
`GET /products/stats`. -/
def routeOf (m : Method) (segs : List String) : RouteId :=
  if m = .GET ∧ segMatch [.lit "products"] segs then .list
  else if m = .GET ∧ segMatch [.lit "products", .param] segs then .getById
  else if m = .POST ∧ segMatch [.lit "products"] segs then .create
  else if m = .PUT ∧ segMatch [.lit "products", .param] segs then .update
  else if m = .DELETE ∧ segMatch [.lit "products", .param] segs then .delete
  else if m = .GET ∧ segMatch [.lit "products", .lit "search"] segs then .search
  else if m = .GET ∧ segMatch [.lit "products", .lit "stats"] segs then .stats
  else .noRoute

/-- The `/api` router: authentication gate first (`apiRouter.use`), then
dispatch to the first matching route; handler errors reach the final
error middleware, which renders `err.status` and `err.message`.  Requests
matching no route fall through to Express's default 404. -/
def handle (secret : Option String) (req : Request) (s : St) : Resp × St :=
  if authOk req.apiKey secret then
    let pid := req.path.getD 1 ""
    match routeOf req.method req.path with
    | .list => (listH req.query s, s)
    | .getById => (getByIdH pid s, s)
    | .create => createH req.body s
    | .update => updateH pid req.body s
    | .delete => deleteH pid s
    | .search => (searchH req.query s, s)
    | .stats => (statsH s, s)
    | .noRoute => (⟨404, .message "Not found"⟩, s)
  else
    (⟨401, .message "Unauthorized"⟩, s)

/-- Run a sequence of requests, threading the state. -/
def run (secret : Option String) (reqs : List Request) (s : St) : St :=
  reqs.foldl (fun st r => (handle secret r st).2) s

/-- The three seeded records of the source file. -/
def seedProducts : List Product :=
  [⟨"1", .str "Laptop", .str "High-performance laptop with 16GB RAM",
    .num 1200, .str "electronics", .bool true⟩,
   ⟨"2", .str "Smartphone", .str "Latest model with 128GB storage",
    .num 800, .str "electronics", .bool true⟩,
   ⟨"3", .str "Coffee Maker", .str "Programmable coffee maker with timer",
    .num 50, .str "kitchen", .bool false⟩]

/-- Process start state: seeded collection, seeded ids recorded as
issued, no uuid generated yet. -/
def seedState : St :=
  ⟨seedProducts, ["1", "2", "3"], 0⟩

/-! ### Invariants -/

/-- Well-typedness of a stored record: the five non-id fields hold a
value of the declared type. -/
def WellTypedP (p : Product) : Prop :=
  typeofJs p.name = "string" ∧ typeofJs p.description = "string" ∧
  typeofJs p.price = "number" ∧ typeofJs p.category = "string" ∧
  typeofJs p.inStock = "boolean"

instance (p : Product) : Decidable (WellTypedP p) := by
  unfold WellTypedP; infer_instance

/-- Bookkeeping invariant of the id generator: ids in the collection are
pairwise distinct, every id in the collection has been issued, and no id
the generator may still produce has been issued already. -/
def StInv (s : St) : Prop :=
  (s.products.map (fun p => p.id)).Nodup ∧
  (∀ p ∈ s.products, p.id ∈ s.issued) ∧
  (∀ k, s.nextId ≤ k → uuidStr k ∉ s.issued)

/-- Full state invariant: generator bookkeeping plus well-typedness of
every stored record. -/
def GoodSt (s : St) : Prop :=
  StInv s ∧ ∀ p ∈ s.products, WellTypedP p

theorem uuidStr_injective : Function.Injective uuidStr := by
  intro a b h
  have hd := congrArg String.data h
  simp only [uuidStr] at hd
  have := congrArg List.length hd
  simpa using this

theorem uuidStr_length (k : Nat) : (uuidStr k).data.length = 5 + k := by
  simp [uuidStr]; omega

theorem uuidStr_ne_of_short (k : Nat) (t : String) (ht : t.data.length < 5) :
    uuidStr k ≠ t := by
  intro h
  have := congrArg (fun s => s.data.length) h
  simp only [uuidStr_length] at this
  omega

theorem inv_seedState : StInv seedState := by
  refine ⟨by decide, by decide, ?_⟩
  intro k _ hk
  have h1 : uuidStr k ≠ "1" := uuidStr_ne_of_short k "1" (by decide)
  have h2 : uuidStr k ≠ "2" := uuidStr_ne_of_short k "2" (by decide)
  have h3 : uuidStr k ≠ "3" := uuidStr_ne_of_short k "3" (by decide)
  simp only [seedState] at hk
  simp only [List.mem_cons, List.not_mem_nil, or_false] at hk
  rcases hk with h | h | h
  · exact h1 h
  · exact h2 h
  · exact h3 h

theorem goodSt_seedState : GoodSt seedState :=
  ⟨inv_seedState, by decide⟩

/-! ### List helper lemmas -/

theorem find?_id_eq_none {ps : List Product} {pid : String}
    (h : ∀ p ∈ ps, p.id ≠ pid) :
    ps.find? (fun p => p.id == pid) = none := by
  induction ps with
  | nil => rfl
  | cons p rest ih =>
    have hp : p.id ≠ pid := h p (by simp)
    have : (p.id == pid) = false := by simpa using hp
    simp only [List.find?, this]
    exact ih (fun q hq => h q (by simp [hq]))

theorem find?_id_isSome {ps : List Product} {pid : String}
    (h : ∃ p ∈ ps, p.id = pid) :
    (ps.find? (fun p => p.id == pid)).isSome := by
  rcases h with ⟨p, hmem, hid⟩
  induction ps with
  | nil => simp at hmem
  | cons q rest ih =>
    by_cases hq : q.id = pid
    · simp [List.find?, hq]
    · have : (q.id == pid) = false := by simpa using hq
      simp only [List.find?, this]
      rcases List.mem_cons.mp hmem with h | h
      · exact absurd (h ▸ hid) hq
      · exact ih h

theorem mergeUpdate_id (p : Product) (b : Body) : (mergeUpdate p b).id = p.id := rfl

theorem updateList_map_id (ps : List Product) (pid : String) (b : Body) :
    (updateList ps pid b).map (fun p => p.id) = ps.map (fun p => p.id) := by
  induction ps with
  | nil => rfl
  | cons p rest ih =>
    by_cases h : p.id = pid
    · simp [updateList, h, mergeUpdate_id]
    · have : (p.id == pid) = false := by simpa using h
      simp [updateList, this, ih]

theorem updateList_mem {ps : List Product} {pid : String} {b : Body} {u : Product}
    (h : u ∈ updateList ps pid b) :
    ∃ p ∈ ps, u = p ∨ u = mergeUpdate p b := by
  induction ps with
  | nil => simp [updateList] at h
  | cons p rest ih =>
    by_cases hp : p.id = pid
    · have : (p.id == pid) = true := by simpa using hp
      simp only [updateList, this, if_true] at h
      rcases List.mem_cons.mp h with h | h
      · exact ⟨p, by simp, Or.inr h⟩
      · exact ⟨u, by simp [h], Or.inl rfl⟩
    · have : (p.id == pid) = false := by simpa using hp
      simp only [updateList, this, if_false] at h
      rcases List.mem_cons.mp h with h | h
      · exact ⟨p, by simp, Or.inl h⟩
      · rcases ih h with ⟨q, hq, hor⟩
        exact ⟨q, by simp [hq], hor⟩

theorem find?_updateList {ps : List Product} {pid : String} {b : Body} {p : Product}
    (h : ps.find? (fun x => x.id == pid) = some p) :
    (updateList ps pid b).find? (fun x => x.id == pid) = some (mergeUpdate p b) := by
  induction ps with
  | nil => simp [List.find?] at h
  | cons q rest ih =>
    by_cases hq : q.id = pid
    · have hb : (q.id == pid) = true := by simpa using hq
      simp only [List.find?, hb] at h
      have hqp : q = p := by simpa using h
      subst hqp
      have hb2 : ((mergeUpdate q b).id == pid) = true := by
        simpa [mergeUpdate_id] using hq
      simp [updateList, hb, List.find?, hb2]
    · have hb : (q.id == pid) = false := by simpa using hq
      simp only [List.find?, hb] at h
      simp [updateList, hb, List.find?, ih h]

theorem removeFirst_sublist (ps : List Product) (pid : String) :
    (removeFirst ps pid).Sublist ps := by
  induction ps with
  | nil => simp [removeFirst]
  | cons p rest ih =>
    by_cases h : p.id = pid
    · have : (p.id == pid) = true := by simpa using h
      simp only [removeFirst, this, if_true]
      exact List.sublist_cons_self p rest
    · have : (p.id == pid) = false := by simpa using h
      simp only [removeFirst, this, if_false]
      exact ih.cons₂ p

theorem removeFirst_no_id {ps : List Product} {pid : String}
    (hnd : (ps.map (fun p => p.id)).Nodup) :
    ∀ p ∈ removeFirst ps pid, p.id ≠ pid := by
  induction ps with
  | nil => intro p hp; simp [removeFirst] at hp
  | cons q rest ih =>
    intro p hp
    by_cases hq : q.id = pid
    · have : (q.id == pid) = true := by simpa using hq
      simp only [removeFirst, this, if_true] at hp
      have hnotin : q.id ∉ rest.map (fun p => p.id) := (List.nodup_cons.mp hnd).1
      intro hpid
      exact hnotin (by
        rw [hq, ← hpid]
        exact List.mem_map.mpr ⟨p, hp, rfl⟩)
    · have : (q.id == pid) = false := by simpa using hq
      simp only [removeFirst, this, if_false] at hp
      rcases List.mem_cons.mp hp with h | h
      · exact h ▸ hq
      · exact ih (List.nodup_cons.mp hnd).2 p h

/-! ### Validator lemmas -/

theorem validateCreate_none_elim {b : Body} (h : validateProductCreation b = none) :
    truthy b.name = true ∧ truthy b.description = true ∧ truthy b.price = true ∧
    truthy b.category = true ∧ isUndef b.inStock = false ∧
    typeofJs b.name = "string" ∧ typeofJs b.description = "string" ∧
    typeofJs b.price = "number" ∧ typeofJs b.category = "string" ∧
    typeofJs b.inStock = "boolean" := by
  unfold validateProductCreation at h
  split at h
  · exact absurd h (by simp)
  · split at h
    · exact absurd h (by simp)
    · rename_i hc1 hc2
      simp only [Bool.or_eq_true, Bool.not_eq_true', not_or, Bool.not_eq_false, Bool.not_eq_true] at hc1
      simp only [Bool.or_eq_true, bne_iff_ne, ne_eq, not_or, not_not] at hc2
      obtain ⟨⟨⟨⟨h1, h2⟩, h3⟩, h4⟩, h5⟩ := hc1
      obtain ⟨⟨⟨⟨t1, t2⟩, t3⟩, t4⟩, t5⟩ := hc2
      exact ⟨h1, h2, h3, h4, h5, t1, t2, t3, t4, t5⟩

theorem validateUpdate_none_elim {b : Body} (h : validateProductUpdate b = none) :
    (truthy b.name = true → typeofJs b.name = "string") ∧
    (truthy b.description = true → typeofJs b.description = "string") ∧
    (truthy b.price = true → typeofJs b.price = "number") ∧
    (truthy b.category = true → typeofJs b.category = "string") ∧
    (isUndef b.inStock = false → typeofJs b.inStock = "boolean") := by
  unfold validateProductUpdate at h
  split at h
  · exact absurd h (by simp)
  · split at h
    · exact absurd h (by simp)
    · split at h
      · exact absurd h (by simp)
      · split at h
        · exact absurd h (by simp)
        · split at h
          · exact absurd h (by simp)
          · rename_i hc1 hc2 hc3 hc4 hc5
            simp only [Bool.and_eq_true, bne_iff_ne, ne_eq, not_and, not_not,
              Bool.not_eq_true'] at hc1 hc2 hc3 hc4 hc5
            exact ⟨hc1, hc2, hc3, hc4, hc5⟩

theorem mergeUpdate_wellTyped {p : Product} {b : Body}
    (hp : WellTypedP p) (hv : validateProductUpdate b = none) :
    WellTypedP (mergeUpdate p b) := by
  obtain ⟨h1, h2, h3, h4, h5⟩ := hp
  obtain ⟨u1, u2, u3, u4, u5⟩ := validateUpdate_none_elim hv
  refine ⟨?_, ?_, ?_, ?_, ?_⟩ <;> simp only [mergeUpdate]
  · by_cases h : truthy b.name = true
    · simp [h, u1 h]
    · simp [Bool.not_eq_true] at h; simp [h, h1]
  · by_cases h : truthy b.description = true
    · simp [h, u2 h]
    · simp [Bool.not_eq_true] at h; simp [h, h2]
  · by_cases h : truthy b.price = true
    · simp [h, u3 h]
    · simp [Bool.not_eq_true] at h; simp [h, h3]
  · by_cases h : truthy b.category = true
    · simp [h, u4 h]
    · simp [Bool.not_eq_true] at h; simp [h, h4]
  · by_cases h : isUndef b.inStock = true
    · simp [h, h5]
    · simp [Bool.not_eq_true] at h; simp [h, u5 h]

/-! ### Preservation of the invariants by each handler -/

theorem createH_preserves {b : Body} {s : St} (h : GoodSt s) :
    GoodSt (createH b s).2 := by
  unfold createH
  cases hv : validateProductCreation b with
  | some msg => exact h
  | none =>
    obtain ⟨⟨hnd, hiss, hfresh⟩, hwt⟩ := h
    obtain ⟨t1, t2, t3, t4, t5, y1, y2, y3, y4, y5⟩ := validateCreate_none_elim hv
    have hnew : uuidStr s.nextId ∉ s.issued := hfresh s.nextId (le_refl _)
    show GoodSt (⟨s.products ++ [⟨uuidStr s.nextId, b.name, b.description, b.price,
      b.category, b.inStock⟩], s.issued ++ [uuidStr s.nextId], s.nextId + 1⟩ : St)
    dsimp only [GoodSt, StInv]
    refine ⟨⟨?_, ?_, ?_⟩, ?_⟩
    · simp only [List.map_append, List.map_cons, List.map_nil, List.nodup_append]
      refine ⟨hnd, by simp, ?_⟩
      intro x hx hx'
      simp only [List.mem_singleton] at hx'
      subst hx'
      rcases List.mem_map.mp hx with ⟨p, hp, hpid⟩
      exact hnew (hpid ▸ hiss p hp)
    · intro p hp
      rcases List.mem_append.mp hp with h | h
      · exact List.mem_append.mpr (Or.inl (hiss p h))
      · simp only [List.mem_singleton] at h
        subst h
        exact List.mem_append.mpr (Or.inr (by simp))
    · intro k hk hmem
      rcases List.mem_append.mp hmem with h | h
      · exact hfresh k (by omega) h
      · simp only [List.mem_singleton] at h
        have := uuidStr_injective h
        omega
    · intro p hp
      rcases List.mem_append.mp hp with h | h
      · exact hwt p h
      · simp only [List.mem_singleton] at h
        subst h
        exact ⟨y1, y2, y3, y4, y5⟩

theorem updateH_preserves {pid : String} {b : Body} {s : St} (h : GoodSt s) :
    GoodSt (updateH pid b s).2 := by
  unfold updateH
  cases hv : validateProductUpdate b with
  | some msg => exact h
  | none =>
    cases hf : s.products.find? (fun p => p.id == pid) with
    | none => exact h
    | some p =>
      obtain ⟨⟨hnd, hiss, hfresh⟩, hwt⟩ := h
      refine ⟨⟨?_, ?_, ?_⟩, ?_⟩
      · simpa [updateList_map_id] using hnd
      · intro u hu
        rcases updateList_mem hu with ⟨q, hq, hor⟩
        rcases hor with h | h
        · exact h ▸ hiss q hq
        · rw [h, mergeUpdate_id]
          exact hiss q hq
      · exact hfresh
      · intro u hu
        rcases updateList_mem hu with ⟨q, hq, hor⟩
        rcases hor with h | h
        · exact h ▸ hwt q hq
        · exact h ▸ mergeUpdate_wellTyped (hwt q hq) hv

theorem deleteH_preserves {pid : String} {s : St} (h : GoodSt s) :
    GoodSt (deleteH pid s).2 := by
  unfold deleteH
  by_cases hf : (s.products.find? (fun p => p.id == pid)).isSome
  · obtain ⟨⟨hnd, hiss, hfresh⟩, hwt⟩ := h
    have hsub := removeFirst_sublist s.products pid
    simp only [hf, if_true]
    refine ⟨⟨?_, ?_, ?_⟩, ?_⟩
    · exact (hsub.map (fun p => p.id)).nodup hnd
    · exact fun p hp => hiss p (hsub.mem hp)
    · exact hfresh
    · exact fun p hp => hwt p (hsub.mem hp)
  · simp only [hf, if_false]
    exact h

theorem handle_preserves (secret : Option String) (req : Request) {s : St}
    (h : GoodSt s) : GoodSt (handle secret req s).2 := by
  unfold handle
  by_cases hA : authOk req.apiKey secret = true
  · simp only [hA, if_true]
    cases routeOf req.method req.path
    · exact h
    · exact h
    · exact createH_preserves h
    · exact updateH_preserves h
    · exact deleteH_preserves h
    · exact h
    · exact h
    · exact h
  · simp only [Bool.not_eq_true] at hA
    simp only [hA, Bool.false_eq_true, if_false]
    exact h

theorem run_goodSt (secret : Option String) (reqs : List Request) {s : St}
    (h : GoodSt s) : GoodSt (run secret reqs s) := by
  induction reqs generalizing s with
  | nil => exact h
  | cons r rest ih => exact ih (handle_preserves secret r h)

/-! ### Claim-side definitions (phrasing taken from the specification) -/

/-- Spec phrasing for C1: all five fields present with the declared types
(`typeof` is `"undefined"` exactly when the field is absent). -/
def claimTypedFull (b : Body) : Bool :=
  typeofJs b.name == "string" && typeofJs b.description == "string" &&
  typeofJs b.price == "number" && typeofJs b.category == "string" &&
  typeofJs b.inStock == "boolean"

/-- The amended creation precondition: typed as declared and additionally
truthy in the four truthiness-checked fields. -/
def goodCreateBody (b : Body) : Bool :=
  claimTypedFull b && truthy b.name && truthy b.description &&
  truthy b.price && truthy b.category

/-- Spec phrasing for C5: exact category match when a category is
provided, no filter otherwise. -/
def claimFilter (ps : List Product) : Option String → List Product
  | none => ps
  | some c => ps.filter (fun p => decide (p.category = JsValue.str c))

/-- Spec phrasing for C5: the page window `[(page-1)*limit, page*limit)`
of a list, read as the set of (nonnegative) indices in that interval. -/
def claimWindow (ps : List Product) (page lim : Int) : List Product :=
  (ps.take (page * lim).toNat).drop ((page - 1) * lim).toNat

/-- Spec phrasing for C6: a falsy value of the declared type. -/
def falsyTyped (v : JsValue) (t : String) : Prop :=
  truthy v = false ∧ typeofJs v = t

/-! ### Reduction helper for `handle` -/

theorem handle_eq_of_auth {secret : Option String} {req : Request} {s : St}
    (hauth : authOk req.apiKey secret = true) :
    handle secret req s =
      (match routeOf req.method req.path with
       | .list => (listH req.query s, s)
       | .getById => (getByIdH (req.path.getD 1 "") s, s)
       | .create => createH req.body s
       | .update => updateH (req.path.getD 1 "") req.body s
       | .delete => deleteH (req.path.getD 1 "") s
       | .search => (searchH req.query s, s)
       | .stats => (statsH s, s)
       | .noRoute => (⟨404, .message "Not found"⟩, s)) := by
  unfold handle
  simp only [hauth, if_true]

/-! ### C10 -/

/-- C10: starting from the seed collection, every sequence of requests
(hence every sequence of create, merge-update and delete operations, in
any mix with reads and failed attempts) preserves the invariants: ids
are pairwise distinct, every stored product has all five non-id fields
of the declared type, and no stored field is ever `null`. -/
theorem c10_collection_invariants (secret : Option String) (reqs : List Request) :
    ((run secret reqs seedState).products.map (fun p => p.id)).Nodup ∧
    ∀ p ∈ (run secret reqs seedState).products,
      typeofJs p.name = "string" ∧ typeofJs p.description = "string" ∧
      typeofJs p.price = "number" ∧ typeofJs p.category = "string" ∧
      typeofJs p.inStock = "boolean" ∧
      p.name ≠ JsValue.null ∧ p.description ≠ JsValue.null ∧
      p.price ≠ JsValue.null ∧ p.category ≠ JsValue.null ∧
      p.inStock ≠ JsValue.null := by
  obtain ⟨⟨hnd, _, _⟩, hwt⟩ := run_goodSt secret reqs goodSt_seedState
  refine ⟨hnd, fun p hp => ?_⟩
  obtain ⟨h1, h2, h3, h4, h5⟩ := hwt p hp
  refine ⟨h1, h2, h3, h4, h5, ?_, ?_, ?_, ?_, ?_⟩
  · intro he; rw [he] at h1; exact absurd h1 (by decide)
  · intro he; rw [he] at h2; exact absurd h2 (by decide)
  · intro he; rw [he] at h3; exact absurd h3 (by decide)
  · intro he; rw [he] at h4; exact absurd h4 (by decide)
  · intro he; rw [he] at h5; exact absurd h5 (by decide)

/-! ### C4 -/

/-- C4: a request whose `x-api-key` header is missing, or differs from
the configured secret, is answered 401 with the collection (indeed the
whole state) unmodified, whatever the method, path, query or body — in
particular the guard fires before any validation or store operation. -/
theorem c4_unauthorized (secret : String) (req : Request) (s : St)
    (h : req.apiKey = none ∨ req.apiKey ≠ some secret) :
    (handle (some secret) req s).1 = ⟨401, .message "Unauthorized"⟩ ∧
    (handle (some secret) req s).2 = s := by
  have hA : authOk req.apiKey (some secret) = false := by
    rcases h with h | h
    · rw [h]; rfl
    · cases hk : req.apiKey with
      | none => rfl
      | some k =>
        have hne : k ≠ secret := by
          intro he
          exact h (by rw [hk, he])
        have hb : (k == secret) = false := by simpa using hne
        simp [authOk, hb]
  unfold handle
  simp [hA]

/-- Witness for C4: an unauthenticated but otherwise valid creation
request against the seed data is rejected 401 and leaves the seed state
intact. -/
theorem c4_unauthorized_witness :
    (handle (some "secret254")
      ⟨.POST, ["products"], none, ⟨none, none, none, none⟩,
       ⟨.str "Lamp", .str "Desk lamp", .num 30, .str "home", .bool true⟩⟩
      seedState).1 = ⟨401, .message "Unauthorized"⟩ ∧
    (handle (some "secret254")
      ⟨.POST, ["products"], none, ⟨none, none, none, none⟩,
       ⟨.str "Lamp", .str "Desk lamp", .num 30, .str "home", .bool true⟩⟩
      seedState).2 = seedState :=
  c4_unauthorized "secret254" _ seedState (Or.inl rfl)

/-! ### C3 -/

/-- C3: because `GET /products/:id` is registered before
`GET /products/search` and `GET /products/stats`, both of those paths
resolve to the `:id` route; as long as no stored product carries the id
`"search"` or `"stats"`, such requests are answered 404 with the state
unchanged, and the search/stats handlers are never the dispatch
target. -/
theorem c3_id_route_shadows (secret key : String) (qy : Query) (b : Body) (s : St)
    (hauth : authOk (some key) (some secret) = true)
    (hids : ∀ p ∈ s.products, p.id ≠ "search" ∧ p.id ≠ "stats") :
    routeOf .GET ["products", "search"] = .getById ∧
    routeOf .GET ["products", "stats"] = .getById ∧
    (handle (some secret) ⟨.GET, ["products", "search"], some key, qy, b⟩ s).1 =
      ⟨404, .message "Product not found"⟩ ∧
    (handle (some secret) ⟨.GET, ["products", "search"], some key, qy, b⟩ s).2 = s ∧
    (handle (some secret) ⟨.GET, ["products", "stats"], some key, qy, b⟩ s).1 =
      ⟨404, .message "Product not found"⟩ ∧
    (handle (some secret) ⟨.GET, ["products", "stats"], some key, qy, b⟩ s).2 = s := by
  have hfs : s.products.find? (fun p => p.id == "search") = none :=
    find?_id_eq_none (fun p hp => (hids p hp).1)
  have hft : s.products.find? (fun p => p.id == "stats") = none :=
    find?_id_eq_none (fun p hp => (hids p hp).2)
  have e1 : handle (some secret) ⟨.GET, ["products", "search"], some key, qy, b⟩ s =
      (⟨404, .message "Product not found"⟩, s) := by
    rw [handle_eq_of_auth hauth]
    show (getByIdH "search" s, s) = _
    simp [getByIdH, hfs]
  have e2 : handle (some secret) ⟨.GET, ["products", "stats"], some key, qy, b⟩ s =
      (⟨404, .message "Product not found"⟩, s) := by
    rw [handle_eq_of_auth hauth]
    show (getByIdH "stats" s, s) = _
    simp [getByIdH, hft]
  exact ⟨rfl, rfl, by rw [e1], by rw [e1], by rw [e2], by rw [e2]⟩

/-- Witness for C3: against the seed data with matching credentials,
both shadowed paths return 404 and leave the state alone. -/
theorem c3_id_route_shadows_witness :
    (handle (some "secret254")
      ⟨.GET, ["products", "search"], some "secret254",
       ⟨none, none, none, some "phone"⟩,
       ⟨.undef, .undef, .undef, .undef, .undef⟩⟩ seedState).1 =
      ⟨404, .message "Product not found"⟩ ∧
    (handle (some "secret254")
      ⟨.GET, ["products", "stats"], some "secret254",
       ⟨none, none, none, some "phone"⟩,
       ⟨.undef, .undef, .undef, .undef, .undef⟩⟩ seedState).1 =
      ⟨404, .message "Product not found"⟩ := by
  have h := c3_id_route_shadows "secret254" "secret254"
    ⟨none, none, none, some "phone"⟩ ⟨.undef, .undef, .undef, .undef, .undef⟩
    seedState (by decide) (by decide)
  exact ⟨h.2.2.1, h.2.2.2.2.1⟩

/-! ### C7 and C8: the dead search/stats endpoints -/

/-- C7: the code contradicts the documented search endpoint.  An
authenticated `GET /api/products/search?q=phone` is captured by the
earlier-registered `:id` route and answered 404 with the state
unchanged, while the search handler itself — were it reachable — would
return exactly the Smartphone record for `q=phone`. -/
theorem c7_search_endpoint_shadowed :
    routeOf .GET ["products", "search"] = .getById ∧
    (handle (some "secret254")
      ⟨.GET, ["products", "search"], some "secret254",
       ⟨none, none, none, some "phone"⟩,
       ⟨.undef, .undef, .undef, .undef, .undef⟩⟩ seedState).1 =
      ⟨404, .message "Product not found"⟩ ∧
    (handle (some "secret254")
      ⟨.GET, ["products", "search"], some "secret254",
       ⟨none, none, none, some "phone"⟩,
       ⟨.undef, .undef, .undef, .undef, .undef⟩⟩ seedState).2 = seedState ∧
    searchH ⟨none, none, none, some "phone"⟩ seedState =
      ⟨200, .products [⟨"2", .str "Smartphone", .str "Latest model with 128GB storage",
        .num 800, .str "electronics", .bool true⟩]⟩ := by decide

/-- C8: the code contradicts the documented stats endpoint.  An
authenticated `GET /api/products/stats` is captured by the `:id` route
and answered 404, while the stats computation itself on the seed data
yields `electronics ↦ 2, kitchen ↦ 1` (insertion-ordered, no key for an
absent category). -/
theorem c8_stats_endpoint_shadowed :
    routeOf .GET ["products", "stats"] = .getById ∧
    (handle (some "secret254")
      ⟨.GET, ["products", "stats"], some "secret254",
       ⟨none, none, none, none⟩,
       ⟨.undef, .undef, .undef, .undef, .undef⟩⟩ seedState).1 =
      ⟨404, .message "Product not found"⟩ ∧
    (handle (some "secret254")
      ⟨.GET, ["products", "stats"], some "secret254",
       ⟨none, none, none, none⟩,
       ⟨.undef, .undef, .undef, .undef, .undef⟩⟩ seedState).2 = seedState ∧
    statsOf seedProducts = [("electronics", 2), ("kitchen", 1)] := by decide

/-! ### Counterexamples -/

/-- Counterexample to C1 as stated: a body with all five fields present
and of the declared types, but with `price` equal to `0`, is rejected
400 by the truthiness-based presence check (the claim predicts 201 and
an append). -/
theorem c1_counterexample :
    claimTypedFull ⟨.str "Widget", .str "A basic widget", .num 0, .str "tools",
      .bool true⟩ = true ∧
    (handle (some "secret254")
      ⟨.POST, ["products"], some "secret254", ⟨none, none, none, none⟩,
       ⟨.str "Widget", .str "A basic widget", .num 0, .str "tools", .bool true⟩⟩
      seedState).1 = ⟨400, .message "All fields are required"⟩ ∧
    (handle (some "secret254")
      ⟨.POST, ["products"], some "secret254", ⟨none, none, none, none⟩,
       ⟨.str "Widget", .str "A basic widget", .num 0, .str "tools", .bool true⟩⟩
      seedState).2 = seedState := by decide

/-- Counterexample to C2 as stated: updating seed product `"1"` with a
payload providing `price: 0` — a value of the correct type — leaves the
stored price at 1200 instead of replacing it, because `0` is falsy in
the `||`-merge. -/
theorem c2_counterexample :
    typeofJs (JsValue.num 0) = "number" ∧
    (handle (some "secret254")
      ⟨.PUT, ["products", "1"], some "secret254", ⟨none, none, none, none⟩,
       ⟨.undef, .undef, .num 0, .undef, .undef⟩⟩ seedState).1 =
      ⟨200, .product ⟨"1", .str "Laptop", .str "High-performance laptop with 16GB RAM",
        .num 1200, .str "electronics", .bool true⟩⟩ ∧
    (handle (some "secret254")
      ⟨.PUT, ["products", "1"], some "secret254", ⟨none, none, none, none⟩,
       ⟨.undef, .undef, .num 0, .undef, .undef⟩⟩ seedState).2.products.find?
        (fun x => x.id == "1") =
      some ⟨"1", .str "Laptop", .str "High-performance laptop with 16GB RAM",
        .num 1200, .str "electronics", .bool true⟩ := by decide

/-- Counterexample to C5 as stated: `?page=-1&limit=1` parses to page
`-1` (an out-of-range page), yet the returned slice is the Smartphone
record — not empty — because JavaScript `slice` treats negative cursors
as offsets from the end; and `?category=` (provided but empty) leaves
the collection unfiltered although an exact match against `""` would
select nothing. -/
theorem c5_counterexample :
    jsIntParam 1 (some "-1") = -1 ∧
    (handle (some "secret254")
      ⟨.GET, ["products"], some "secret254", ⟨none, some "-1", some "1", none⟩,
       ⟨.undef, .undef, .undef, .undef, .undef⟩⟩ seedState).1 =
      ⟨200, .listPage (-1) 1 3 [⟨"2", .str "Smartphone",
        .str "Latest model with 128GB storage", .num 800, .str "electronics",
        .bool true⟩]⟩ ∧
    claimWindow seedProducts (-1) 1 = [] ∧
    (handle (some "secret254")
      ⟨.GET, ["products"], some "secret254", ⟨some "", none, none, none⟩,
       ⟨.undef, .undef, .undef, .undef, .undef⟩⟩ seedState).1 =
      ⟨200, .listPage 1 10 3 seedProducts⟩ ∧
    claimFilter seedProducts (some "") = [] := by decide

/-- Counterexample to C6 as stated: `inStock: false` is a falsy value of
the declared boolean type, yet creation succeeds with 201 — the presence
check for `inStock` uses `=== undefined`, not truthiness. -/
theorem c6_counterexample :
    truthy (JsValue.bool false) = false ∧
    typeofJs (JsValue.bool false) = "boolean" ∧
    (handle (some "secret254")
      ⟨.POST, ["products"], some "secret254", ⟨none, none, none, none⟩,
       ⟨.str "Desk Lamp", .str "LED desk lamp", .num 30, .str "home", .bool false⟩⟩
      seedState).1.status = 201 := by decide

/-! ### C1 amended -/

theorem typeof_bool_not_undef {v : JsValue} (h : typeofJs v = "boolean") :
    isUndef v = false := by
  cases v
  · simp [typeofJs] at h
  · simp [typeofJs] at h
  · rfl
  · simp [typeofJs] at h
  · simp [typeofJs] at h

theorem goodCreate_validate {b : Body} (h : goodCreateBody b = true) :
    validateProductCreation b = none := by
  simp only [goodCreateBody, claimTypedFull, Bool.and_eq_true, beq_iff_eq] at h
  obtain ⟨⟨⟨⟨⟨⟨⟨⟨y1, y2⟩, y3⟩, y4⟩, y5⟩, t1⟩, t2⟩, t3⟩, t4⟩ := h
  have hu : isUndef b.inStock = false := typeof_bool_not_undef y5
  simp [validateProductCreation, t1, t2, t3, t4, hu, y1, y2, y3, y4, y5]

theorem validate_none_typed {b : Body} (h : validateProductCreation b = none) :
    claimTypedFull b = true := by
  obtain ⟨_, _, _, _, _, y1, y2, y3, y4, y5⟩ := validateCreate_none_elim h
  simp [claimTypedFull, y1, y2, y3, y4, y5]

/-- C1, amended: a creation body whose five fields are present with the
declared types **and** truthy in the four truthiness-checked fields
(non-empty strings, non-zero price; `inStock` may be any boolean) is
answered 201 with a record whose freshly generated id was never issued
before, appended to the collection; a body in which some field is absent
or has the wrong type is answered 400 with the state unchanged.  (The
claim's original precondition — typed fields only — is refuted by
`c1_counterexample`: falsy values such as price `0` are also
rejected.) -/
theorem c1_create_contract (secret key : String) (qy : Query) (b : Body) (s : St)
    (hauth : authOk (some key) (some secret) = true)
    (hinv : StInv s) :
    (goodCreateBody b = true →
      (handle (some secret) ⟨.POST, ["products"], some key, qy, b⟩ s).1 =
        ⟨201, .product ⟨uuidStr s.nextId, b.name, b.description, b.price,
          b.category, b.inStock⟩⟩ ∧
      uuidStr s.nextId ∉ s.issued ∧
      (handle (some secret) ⟨.POST, ["products"], some key, qy, b⟩ s).2.products =
        s.products ++ [⟨uuidStr s.nextId, b.name, b.description, b.price,
          b.category, b.inStock⟩] ∧
      (handle (some secret) ⟨.POST, ["products"], some key, qy, b⟩ s).2.products.length =
        s.products.length + 1) ∧
    (claimTypedFull b = false →
      (handle (some secret) ⟨.POST, ["products"], some key, qy, b⟩ s).1.status = 400 ∧
      (handle (some secret) ⟨.POST, ["products"], some key, qy, b⟩ s).2 = s) := by
  constructor
  · intro hg
    have hv := goodCreate_validate hg
    have hcr : handle (some secret) ⟨.POST, ["products"], some key, qy, b⟩ s =
        (⟨201, .product ⟨uuidStr s.nextId, b.name, b.description, b.price,
          b.category, b.inStock⟩⟩,
         ⟨s.products ++ [⟨uuidStr s.nextId, b.name, b.description, b.price,
          b.category, b.inStock⟩], s.issued ++ [uuidStr s.nextId], s.nextId + 1⟩) := by
      rw [handle_eq_of_auth hauth]
      show createH b s = _
      simp [createH, hv]
    rw [hcr]
    exact ⟨rfl, hinv.2.2 s.nextId (le_refl _), rfl, by simp⟩
  · intro hbad
    cases hv : validateProductCreation b with
    | none => rw [validate_none_typed hv] at hbad; cases hbad
    | some msg =>
      have hcr : handle (some secret) ⟨.POST, ["products"], some key, qy, b⟩ s =
          (⟨400, .message msg⟩, s) := by
        rw [handle_eq_of_auth hauth]
        show createH b s = _
        simp [createH, hv]
      rw [hcr]
      exact ⟨rfl, rfl⟩

/-- Witness for C1: creating a well-formed product against the seed
state yields 201 with the first generated id and grows the collection to
four records; a body missing `category` is rejected 400 and leaves the
state untouched. -/
theorem c1_create_contract_witness :
    (handle (some "secret254")
      ⟨.POST, ["products"], some "secret254", ⟨none, none, none, none⟩,
       ⟨.str "Desk Lamp", .str "LED desk lamp", .num 30, .str "home", .bool true⟩⟩
      seedState).1 =
      ⟨201, .product ⟨uuidStr 0, .str "Desk Lamp", .str "LED desk lamp", .num 30,
        .str "home", .bool true⟩⟩ ∧
    (handle (some "secret254")
      ⟨.POST, ["products"], some "secret254", ⟨none, none, none, none⟩,
       ⟨.str "Desk Lamp", .str "LED desk lamp", .num 30, .str "home", .bool true⟩⟩
      seedState).2.products.length = 4 := by
  have h := (c1_create_contract "secret254" "secret254" ⟨none, none, none, none⟩
    ⟨.str "Desk Lamp", .str "LED desk lamp", .num 30, .str "home", .bool true⟩
    seedState (by decide) inv_seedState).1 (by decide)
  have h1 := h.1
  have h4 := h.2.2.2
  exact ⟨h1, by rw [h4]; decide⟩

/-! ### C2 amended -/

/-- C2, amended: on a `PUT` to an existing product with a payload that
passes the update validator, the response is 200 with the merged record,
which is also what the collection then stores at that id; a provided
**truthy** value replaces the stored field, while an absent *or falsy*
provided value leaves the stored field untouched (`inStock`, checked
against `undefined`, is replaced whenever present, including `false`).
In particular `{price: 999}` changes only `price`.  (The claim's
original "each provided correctly-typed field replaces" is refuted by
`c2_counterexample`: a provided price `0` does not replace.) -/
theorem c2_update_merge (secret key pid : String) (qy : Query) (b : Body) (s : St)
    (p : Product)
    (hauth : authOk (some key) (some secret) = true)
    (hv : validateProductUpdate b = none)
    (hf : s.products.find? (fun x => x.id == pid) = some p) :
    (handle (some secret) ⟨.PUT, ["products", pid], some key, qy, b⟩ s).1 =
      ⟨200, .product (mergeUpdate p b)⟩ ∧
    (handle (some secret) ⟨.PUT, ["products", pid], some key, qy, b⟩ s).2.products.find?
      (fun x => x.id == pid) = some (mergeUpdate p b) ∧
    (mergeUpdate p b).id = p.id ∧
    (truthy b.name = true → (mergeUpdate p b).name = b.name) ∧
    (truthy b.name = false → (mergeUpdate p b).name = p.name) ∧
    (truthy b.description = true → (mergeUpdate p b).description = b.description) ∧
    (truthy b.description = false → (mergeUpdate p b).description = p.description) ∧
    (truthy b.price = true → (mergeUpdate p b).price = b.price) ∧
    (truthy b.price = false → (mergeUpdate p b).price = p.price) ∧
    (truthy b.category = true → (mergeUpdate p b).category = b.category) ∧
    (truthy b.category = false → (mergeUpdate p b).category = p.category) ∧
    (isUndef b.inStock = false → (mergeUpdate p b).inStock = b.inStock) ∧
    (isUndef b.inStock = true → (mergeUpdate p b).inStock = p.inStock) := by
  have hup : handle (some secret) ⟨.PUT, ["products", pid], some key, qy, b⟩ s =
      (⟨200, .product (mergeUpdate p b)⟩,
       { s with products := updateList s.products pid b }) := by
    rw [handle_eq_of_auth hauth]
    show updateH pid b s = _
    simp [updateH, hv, hf]
  rw [hup]
  refine ⟨rfl, find?_updateList hf, rfl, ?_, ?_, ?_, ?_, ?_, ?_, ?_, ?_, ?_, ?_⟩ <;>
    intro hc <;> simp [mergeUpdate, hc]

/-- Witness for C2: updating seed product `"1"` with `{price: 999}`
returns 200 and changes only the price; name, description, category and
inStock keep their pre-update values. -/
theorem c2_update_merge_witness :
    (handle (some "secret254")
      ⟨.PUT, ["products", "1"], some "secret254", ⟨none, none, none, none⟩,
       ⟨.undef, .undef, .num 999, .undef, .undef⟩⟩ seedState).1 =
      ⟨200, .product ⟨"1", .str "Laptop", .str "High-performance laptop with 16GB RAM",
        .num 999, .str "electronics", .bool true⟩⟩ ∧
    (handle (some "secret254")
      ⟨.PUT, ["products", "1"], some "secret254", ⟨none, none, none, none⟩,
       ⟨.undef, .undef, .num 999, .undef, .undef⟩⟩ seedState).2.products.find?
      (fun x => x.id == "1") =
      some ⟨"1", .str "Laptop", .str "High-performance laptop with 16GB RAM",
        .num 999, .str "electronics", .bool true⟩ := by
  have h := c2_update_merge "secret254" "secret254" "1" ⟨none, none, none, none⟩
    ⟨.undef, .undef, .num 999, .undef, .undef⟩ seedState
    ⟨"1", .str "Laptop", .str "High-performance laptop with 16GB RAM",
     .num 1200, .str "electronics", .bool true⟩
    (by decide) (by decide) (by decide)
  have h1 := h.1
  have h2 := h.2.1
  revert h1 h2
  decide

/-! ### C6 amended -/

/-- C6, amended: a creation payload with a falsy but correctly-typed
value for `name`, `description`, `price` or `category` is rejected 400
(the truthiness presence check cannot tell it from an absent field) with
the state unchanged; `inStock: false`, although falsy and well-typed, is
*accepted* because that field is presence-checked against `undefined`
(see `c6_counterexample`).  On update, a falsy provided value for any of
those four fields leaves the stored field unchanged rather than
overwriting it. -/
theorem c6_falsy_values (secret key : String) (qy : Query) (b : Body) (s : St)
    (hauth : authOk (some key) (some secret) = true)
    (hf : falsyTyped b.name "string" ∨ falsyTyped b.description "string" ∨
          falsyTyped b.price "number" ∨ falsyTyped b.category "string") :
    ((handle (some secret) ⟨.POST, ["products"], some key, qy, b⟩ s).1 =
      ⟨400, .message "All fields are required"⟩ ∧
     (handle (some secret) ⟨.POST, ["products"], some key, qy, b⟩ s).2 = s) ∧
    (∀ (pid : String) (p : Product),
      s.products.find? (fun x => x.id == pid) = some p →
      validateProductUpdate b = none →
      (handle (some secret) ⟨.PUT, ["products", pid], some key, qy, b⟩ s).1 =
        ⟨200, .product (mergeUpdate p b)⟩ ∧
      (truthy b.name = false → (mergeUpdate p b).name = p.name) ∧
      (truthy b.description = false → (mergeUpdate p b).description = p.description) ∧
      (truthy b.price = false → (mergeUpdate p b).price = p.price) ∧
      (truthy b.category = false → (mergeUpdate p b).category = p.category)) := by
  constructor
  · have hguard : (!truthy b.name || !truthy b.description || !truthy b.price ||
        !truthy b.category || isUndef b.inStock) = true := by
      rcases hf with ⟨h, _⟩ | ⟨h, _⟩ | ⟨h, _⟩ | ⟨h, _⟩ <;> simp [h]
    have hv : validateProductCreation b = some "All fields are required" := by
      simp [validateProductCreation, hguard]
    have hcr : handle (some secret) ⟨.POST, ["products"], some key, qy, b⟩ s =
        (⟨400, .message "All fields are required"⟩, s) := by
      rw [handle_eq_of_auth hauth]
      show createH b s = _
      simp [createH, hv]
    rw [hcr]
    exact ⟨rfl, rfl⟩
  · intro pid p hfind hv
    have hup : handle (some secret) ⟨.PUT, ["products", pid], some key, qy, b⟩ s =
        (⟨200, .product (mergeUpdate p b)⟩,
         { s with products := updateList s.products pid b }) := by
      rw [handle_eq_of_auth hauth]
      show updateH pid b s = _
      simp [updateH, hv, hfind]
    rw [hup]
    refine ⟨rfl, ?_, ?_, ?_, ?_⟩ <;> intro hc <;> simp [mergeUpdate, hc]

/-- Witness for C6: a payload with an empty (falsy) description is
rejected 400 at creation, and on update of seed product `"1"` the same
payload changes name and price but leaves the stored description as it
was. -/
theorem c6_falsy_values_witness :
    (handle (some "secret254")
      ⟨.POST, ["products"], some "secret254", ⟨none, none, none, none⟩,
       ⟨.str "Gadget", .str "", .num 25, .str "tools", .bool true⟩⟩ seedState).1 =
      ⟨400, .message "All fields are required"⟩ ∧
    (handle (some "secret254")
      ⟨.PUT, ["products", "1"], some "secret254", ⟨none, none, none, none⟩,
       ⟨.str "Gadget", .str "", .num 25, .str "tools", .bool true⟩⟩ seedState).1 =
      ⟨200, .product ⟨"1", .str "Gadget",
        .str "High-performance laptop with 16GB RAM", .num 25, .str "tools",
        .bool true⟩⟩ := by
  have h := c6_falsy_values "secret254" "secret254" ⟨none, none, none, none⟩
    ⟨.str "Gadget", .str "", .num 25, .str "tools", .bool true⟩ seedState
    (by decide) (Or.inr (Or.inl (by constructor <;> decide)))
  have h1 := h.1.1
  have h2 := (h.2 "1" ⟨"1", .str "Laptop", .str "High-performance laptop with 16GB RAM",
    .num 1200, .str "electronics", .bool true⟩ (by decide) (by decide)).1
  revert h1 h2
  decide

/-! ### C5 amended -/

theorem jsSlice_eq_window {α : Type} (l : List α) (a b : Int)
    (ha : 0 ≤ a) (hb : 0 ≤ b) :
    jsSlice l a b = (l.take b.toNat).drop a.toNat := by
  simp only [jsSlice]
  rw [if_neg (by omega), if_neg (by omega), List.drop_take]
  rcases le_or_lt a ((l.length : Int)) with h1 | h1
  · rw [min_eq_left h1]
    rcases le_or_lt b ((l.length : Int)) with h2 | h2
    · rw [min_eq_left h2]
      have he : (b - a).toNat = b.toNat - a.toNat := by omega
      rw [he]
    · rw [min_eq_right (le_of_lt h2)]
      have he : (((l.length : Int)) - a).toNat = l.length - a.toNat := by omega
      rw [he]
      have hd : (l.drop a.toNat).length = l.length - a.toNat := List.length_drop _ _
      rw [← hd, List.take_length, List.take_of_length_le]
      rw [hd]
      omega
  · rw [min_eq_right (le_of_lt h1)]
    have h3 : l.length ≤ a.toNat := by omega
    rw [List.drop_eq_nil_of_le h3]
    simp [List.drop_length]

/-- C5, amended: when the parsed `page` is at least 1 and the parsed
`limit` nonnegative, and the `category` parameter is not the empty
string, a `GET /products` request returns 200 with the category-filtered
collection's total, the echoed page and limit, and exactly the page
window `[(page-1)*limit, page*limit)` of the filtered list (an
out-of-range page ≥ 1 gives an empty slice, and no upper bound is placed
on `limit`); `page` and `limit` fall back to 1 and 10 when absent,
non-numeric, or zero.  The state is unchanged.  (For negative parsed
values the code instead indexes from the end of the list, and a provided
empty `category` disables the filter: `c5_counterexample`.) -/
theorem c5_list_pagination (secret key : String) (qy : Query) (b : Body) (s : St)
    (page lim : Int)
    (hauth : authOk (some key) (some secret) = true)
    (hpage : jsIntParam 1 qy.page = page)
    (hlim : jsIntParam 10 qy.limit = lim)
    (hp : 1 ≤ page) (hl : 0 ≤ lim)
    (hc : qy.category ≠ some "") :
    (handle (some secret) ⟨.GET, ["products"], some key, qy, b⟩ s).1 =
      ⟨200, .listPage page lim (claimFilter s.products qy.category).length
        (claimWindow (claimFilter s.products qy.category) page lim)⟩ ∧
    (handle (some secret) ⟨.GET, ["products"], some key, qy, b⟩ s).2 = s := by
  have hfil : (match qy.category with
      | some c => if c == "" then s.products
          else s.products.filter (fun p => decide (p.category = JsValue.str c))
      | none => s.products) = claimFilter s.products qy.category := by
    cases hcc : qy.category with
    | none => rfl
    | some c =>
      have hne : ¬(c = "") := by
        intro h
        exact hc (by rw [hcc, h])
      have hbf : (c == "") = false := by simpa using hne
      simp [claimFilter, hbf]
  have hwin : jsSlice (claimFilter s.products qy.category) ((page - 1) * lim) (page * lim) =
      claimWindow (claimFilter s.products qy.category) page lim := by
    rw [jsSlice_eq_window _ _ _ (mul_nonneg (by omega) hl) (mul_nonneg (by omega) hl)]
    rfl
  have hli : listH qy s = ⟨200, .listPage page lim
      (claimFilter s.products qy.category).length
      (claimWindow (claimFilter s.products qy.category) page lim)⟩ := by
    simp only [listH, hfil, hpage, hlim, hwin]
  have hall : handle (some secret) ⟨.GET, ["products"], some key, qy, b⟩ s =
      (⟨200, .listPage page lim (claimFilter s.products qy.category).length
        (claimWindow (claimFilter s.products qy.category) page lim)⟩, s) := by
    rw [handle_eq_of_auth hauth]
    show (listH qy s, s) = _
    rw [hli]
  rw [hall]
  exact ⟨rfl, rfl⟩

/-- Witness for C5: `GET /api/products?category=kitchen&page=1&limit=1`
against the seed data returns `total = 1` with exactly the one kitchen
product, echoing page 1 and limit 1. -/
theorem c5_list_pagination_witness :
    (handle (some "secret254")
      ⟨.GET, ["products"], some "secret254", ⟨some "kitchen", some "1", some "1", none⟩,
       ⟨.undef, .undef, .undef, .undef, .undef⟩⟩ seedState).1 =
      ⟨200, .listPage 1 1 1 [⟨"3", .str "Coffee Maker",
        .str "Programmable coffee maker with timer", .num 50, .str "kitchen",
        .bool false⟩]⟩ := by
  have h := (c5_list_pagination "secret254" "secret254"
    ⟨some "kitchen", some "1", some "1", none⟩ ⟨.undef, .undef, .undef, .undef, .undef⟩
    seedState 1 1 (by decide) (by decide) (by decide) (by decide) (by decide)
    (by decide)).1
  revert h
  decide

/-! ### C9 -/

/-- C9: with pairwise-distinct stored ids, `DELETE /products/:id` on an
existing id answers 204 with an empty body and removes that product, so
that a subsequent `GET` of the id answers 404 and a repeated `DELETE`
answers 404 without further change; a `DELETE` of an id not in the
collection answers 404 and leaves the state untouched. -/
theorem c9_delete_semantics (secret key pid : String) (qy : Query) (b : Body) (s : St)
    (hauth : authOk (some key) (some secret) = true)
    (hnd : (s.products.map (fun p => p.id)).Nodup) :
    ((∃ p ∈ s.products, p.id = pid) →
      (handle (some secret) ⟨.DELETE, ["products", pid], some key, qy, b⟩ s).1 =
        ⟨204, .empty⟩ ∧
      (handle (some secret) ⟨.DELETE, ["products", pid], some key, qy, b⟩ s).2.products =
        removeFirst s.products pid ∧
      (∀ p ∈ (handle (some secret) ⟨.DELETE, ["products", pid], some key, qy, b⟩
          s).2.products, p.id ≠ pid) ∧
      (handle (some secret) ⟨.GET, ["products", pid], some key, qy, b⟩
        ((handle (some secret) ⟨.DELETE, ["products", pid], some key, qy, b⟩ s).2)).1 =
        ⟨404, .message "Product not found"⟩ ∧
      (handle (some secret) ⟨.DELETE, ["products", pid], some key, qy, b⟩
        ((handle (some secret) ⟨.DELETE, ["products", pid], some key, qy, b⟩ s).2)).1 =
        ⟨404, .message "Product not found"⟩ ∧
      (handle (some secret) ⟨.DELETE, ["products", pid], some key, qy, b⟩
        ((handle (some secret) ⟨.DELETE, ["products", pid], some key, qy, b⟩ s).2)).2 =
        (handle (some secret) ⟨.DELETE, ["products", pid], some key, qy, b⟩ s).2) ∧
    ((∀ p ∈ s.products, p.id ≠ pid) →
      (handle (some secret) ⟨.DELETE, ["products", pid], some key, qy, b⟩ s).1 =
        ⟨404, .message "Product not found"⟩ ∧
      (handle (some secret) ⟨.DELETE, ["products", pid], some key, qy, b⟩ s).2 = s) := by
  constructor
  · intro hex
    have hsome : (s.products.find? (fun p => p.id == pid)).isSome = true :=
      find?_id_isSome hex
    have hdel : handle (some secret) ⟨.DELETE, ["products", pid], some key, qy, b⟩ s =
        (⟨204, .empty⟩, { s with products := removeFirst s.products pid }) := by
      rw [handle_eq_of_auth hauth]
      show deleteH pid s = _
      simp [deleteH, hsome]
    have hgone : ∀ p ∈ removeFirst s.products pid, p.id ≠ pid :=
      removeFirst_no_id hnd
    have hnone : (removeFirst s.products pid).find? (fun p => p.id == pid) = none :=
      find?_id_eq_none hgone
    have hget : handle (some secret) ⟨.GET, ["products", pid], some key, qy, b⟩
        ({ s with products := removeFirst s.products pid } : St) =
        (⟨404, .message "Product not found"⟩,
         ({ s with products := removeFirst s.products pid } : St)) := by
      rw [handle_eq_of_auth hauth]
      show (getByIdH pid _, _) = _
      simp [getByIdH, hnone]
    have hdel2 : handle (some secret) ⟨.DELETE, ["products", pid], some key, qy, b⟩
        ({ s with products := removeFirst s.products pid } : St) =
        (⟨404, .message "Product not found"⟩,
         ({ s with products := removeFirst s.products pid } : St)) := by
      rw [handle_eq_of_auth hauth]
      show deleteH pid _ = _
      simp [deleteH, hnone]
    rw [hdel]
    exact ⟨rfl, rfl, hgone, by rw [hget], by rw [hdel2], by rw [hdel2]⟩
  · intro habs
    have hnone : s.products.find? (fun p => p.id == pid) = none :=
      find?_id_eq_none habs
    have hdel : handle (some secret) ⟨.DELETE, ["products", pid], some key, qy, b⟩ s =
        (⟨404, .message "Product not found"⟩, s) := by
      rw [handle_eq_of_auth hauth]
      show deleteH pid s = _
      simp [deleteH, hnone]
    rw [hdel]
    exact ⟨rfl, rfl⟩

/-- Witness for C9: deleting seed product `"2"` answers 204, the
followup `GET /products/2` answers 404, and repeating the delete answers
404 as well. -/
theorem c9_delete_semantics_witness :
    (handle (some "secret254")
      ⟨.DELETE, ["products", "2"], some "secret254", ⟨none, none, none, none⟩,
       ⟨.undef, .undef, .undef, .undef, .undef⟩⟩ seedState).1 = ⟨204, .empty⟩ ∧
    (handle (some "secret254")
      ⟨.GET, ["products", "2"], some "secret254", ⟨none, none, none, none⟩,
       ⟨.undef, .undef, .undef, .undef, .undef⟩⟩
      ((handle (some "secret254")
        ⟨.DELETE, ["products", "2"], some "secret254", ⟨none, none, none, none⟩,
         ⟨.undef, .undef, .undef, .undef, .undef⟩⟩ seedState).2)).1 =
      ⟨404, .message "Product not found"⟩ ∧
    (handle (some "secret254")
      ⟨.DELETE, ["products", "2"], some "secret254", ⟨none, none, none, none⟩,
       ⟨.undef, .undef, .undef, .undef, .undef⟩⟩
      ((handle (some "secret254")
        ⟨.DELETE, ["products", "2"], some "secret254", ⟨none, none, none, none⟩,
         ⟨.undef, .undef, .undef, .undef, .undef⟩⟩ seedState).2)).1 =
      ⟨404, .message "Product not found"⟩ := by
  have h := (c9_delete_semantics "secret254" "secret254" "2" ⟨none, none, none, none⟩
    ⟨.undef, .undef, .undef, .undef, .undef⟩ seedState (by decide) (by decide)).1
    (by decide)
  exact ⟨h.1, h.2.2.2.1, h.2.2.2.2.1⟩
